import Mathlib

/-
Verification of the key-binding layer of pgcli (pgcli/key_bindings.py).

The file shallowly embeds the module: the patched vi-state input-mode setter
(setup_vim_cursor_shapes.set_input_mode) and the binding table built by
pgcli_bindings, together with the dispatch discipline of the host input loop.
Collaborator operations (the line-editing buffer/document, the opaque
pgbuffer predicates, the host dispatch loop) are not part of the translated
source; those definitions carry a doc comment starting with
"Modelled from the spec:" and follow the specification's interface wording.
-/

set_option maxHeartbeats 1000000

/-- Input modes of the vi state machine (collaborator enumeration from the
editor library). `NAVIGATION`, `REPLACE` and `INSERT` are the keys of the
shape lookup table; the remaining modes exercise its default branch. -/
inductive InputMode where
  | INSERT
  | INSERT_MULTIPLE
  | NAVIGATION
  | REPLACE
  | REPLACE_SINGLE
  deriving DecidableEq

/-- Top-level editing mode of the host application. -/
inductive EMode where
  | VI
  | EMACS
  deriving DecidableEq

/-- Physical key identifiers occurring in the binding table. -/
inductive Key where
  | f2
  | f3
  | f4
  | f5
  | tab
  | escape
  | controlSpace
  | controlJ
  | controlK
  | enter
  | controlP
  | controlN
  | l
  | right
  deriving DecidableEq

/-- Observable calls a handler makes on the buffer collaborator. -/
inductive BufOp where
  | insertTextOp (text : String) (fireEvent : Bool)
  | completeNextOp
  | completePreviousOp
  | startCompletionOp (selectFirst : Bool)
  | validateAndHandleOp
  | historyBackwardOp (count : Nat)
  | historyForwardOp (count : Nat)
  deriving DecidableEq

/-- The standard-output byte stream as seen by the cursor-shape writer:
`writable` is false when the object lacks a usable write method (Python
AttributeError), `raises` is true when write/flush raises OSError. -/
structure OutStream where
  writable : Bool
  raises : Bool
  deriving DecidableEq

/-- The two exception classes caught by the cursor-shape writer. -/
inductive WriteErr where
  | attributeError
  | osError
  deriving DecidableEq

/-- Modelled from the spec: the raw write-and-flush of an escape sequence to
the output stream, the only fallible operation (stream not writable, or the
write raises an I/O-level error); on success the sequence is emitted once. -/
def rawWriteFlush (out : OutStream) (msg : String) : Except WriteErr (List String) :=
  if !out.writable then Except.error WriteErr.attributeError
  else if out.raises then Except.error WriteErr.osError
  else Except.ok [msg]

/-- The vi state object: the patched backing field `_input_mode`. -/
structure ViSt where
  _input_mode : InputMode
  deriving DecidableEq

/-- Cursor shape lookup of set_input_mode:
1 = block (NAVIGATION), 3 = underline (REPLACE), 5 = beam (INSERT),
default 5 for any other mode (the dict .get default). -/
def shapeCode (mode : InputMode) : Nat :=
  match mode with
  | InputMode.NAVIGATION => 1
  | InputMode.REPLACE => 3
  | InputMode.INSERT => 5
  | _ => 5

/-- The escape sequence `ESC [ <code> SPACE q` built by set_input_mode. -/
def escapeSeq (mode : InputMode) : String :=
  "\x1b[" ++ toString (shapeCode mode) ++ " q"

/-- The exception classes listed in the except clause of set_input_mode:
AttributeError and OSError are caught, nothing else. -/
def caught (e : WriteErr) : Bool :=
  match e with
  | WriteErr.attributeError => true
  | WriteErr.osError => true

/-- The patched input-mode setter (setup_vim_cursor_shapes.set_input_mode):
try writing the escape sequence for `mode` and flushing; on AttributeError or
OSError pass; then store `mode` in `_input_mode`. The result is the error (if
one escapes the except clause), or the new vi state and the list of emitted
sequences. -/
def set_input_mode (mode : InputMode) (out : OutStream) (_self : ViSt) :
    Except WriteErr (ViSt × List String) :=
  match rawWriteFlush out (escapeSeq mode) with
  | Except.ok written => Except.ok ({ _input_mode := mode }, written)
  | Except.error e =>
      if caught e then Except.ok ({ _input_mode := mode }, [])
      else Except.error e

/-- The editor state read and written by the handlers: the buffer text and
cursor, the completion/search/selection state of the UI, the editing and input
modes, the four pgcli toggle flags, the two opaque pgbuffer predicates, the
history position, the output stream and what was written to it, and the trace
of buffer-collaborator calls made so far. -/
structure EditorState where
  text : List Char
  cursorPosition : Nat
  suggestion : Option String
  completionOpen : Bool
  completionSelected : Bool
  searching : Bool
  selectionActive : Bool
  editingMode : EMode
  inputMode : InputMode
  smart_completion : Bool
  multi_line : Bool
  vi_mode_flag : Bool
  explain_mode : Bool
  shouldBeHandled : Bool
  safeMultiLine : Bool
  historyIndex : Int
  stream : OutStream
  emitted : List String
  shapesInstalled : Bool
  trace : List BufOp
  deriving DecidableEq

/-- Modelled from the spec: the document text on the current line after the
cursor (prompt_toolkit Document collaborator). -/
def current_line_after_cursor (s : EditorState) : List Char :=
  (s.text.drop s.cursorPosition).takeWhile (fun c => !(c == '\n'))

/-- Modelled from the spec: "whether the document cursor sits at the end of
the current line" (Document.is_cursor_at_the_end_of_line). -/
def is_cursor_at_the_end_of_line (s : EditorState) : Bool :=
  current_line_after_cursor s == []

/-- Modelled from the spec: the current line before the cursor. -/
def current_line_before_cursor (s : EditorState) : List Char :=
  ((s.text.take s.cursorPosition).reverse.takeWhile (fun c => !(c == '\n'))).reverse

/-- Modelled from the spec: whether the cursor is on the first line
(Document.on_first_line). -/
def on_first_line (s : EditorState) : Bool :=
  !((s.text.take s.cursorPosition).any (fun c => c == '\n'))

/-- Modelled from the spec: the text of the line the cursor is on
(Document.current_line). -/
def current_line (s : EditorState) : List Char :=
  current_line_before_cursor s ++ current_line_after_cursor s

/-- Truthiness of Python str.strip() on a line: true exactly when the line
contains a non-whitespace character. -/
def stripTruthy (l : List Char) : Bool :=
  l.any (fun c => !c.isWhitespace)

/-- Modelled from the spec: Buffer.insert_text(text, fire_event) of the
buffer collaborator: insert at the cursor, advance the cursor past the
inserted text, record the call (and its fire_event flag) in the trace. -/
def insert_text (s : EditorState) (t : String) (fireEvent : Bool) : EditorState :=
  { s with
    text := s.text.take s.cursorPosition ++ t.toList ++ s.text.drop s.cursorPosition,
    cursorPosition := s.cursorPosition + t.length,
    trace := s.trace ++ [BufOp.insertTextOp t fireEvent] }

/-- Modelled from the spec: Document.get_cursor_right_position, used by the
handlers as "ordinary single-character forward cursor movement". -/
def get_cursor_right_position (_s : EditorState) : Nat := 1

/-- Modelled from the spec: Buffer.complete_next — advance to the next
completion candidate of the open session. -/
def complete_next (s : EditorState) : EditorState :=
  { s with completionOpen := true, completionSelected := true,
           trace := s.trace ++ [BufOp.completeNextOp] }

/-- Modelled from the spec: Buffer.complete_previous — move to the previous
completion candidate of the open session. -/
def complete_previous (s : EditorState) : EditorState :=
  { s with completionOpen := true, completionSelected := true,
           trace := s.trace ++ [BufOp.completePreviousOp] }

/-- Modelled from the spec: Buffer.start_completion(select_first) — open a
completion session, with the first candidate pre-selected when asked. -/
def start_completion (s : EditorState) (selectFirst : Bool) : EditorState :=
  { s with completionOpen := true, completionSelected := selectFirst,
           trace := s.trace ++ [BufOp.startCompletionOp selectFirst] }

/-- Setting buffer.complete_state = None: the completion session is closed
and nothing is highlighted; the buffer itself is untouched. -/
def clear_complete_state (s : EditorState) : EditorState :=
  { s with completionOpen := false, completionSelected := false }

/-- Modelled from the spec: Buffer.validate_and_handle — submit (validate and
execute) the buffer; recorded in the trace. -/
def validate_and_handle (s : EditorState) : EditorState :=
  { s with trace := s.trace ++ [BufOp.validateAndHandleOp] }

/-- Modelled from the spec: Buffer.history_backward(count) — move backward
through input history by `count` entries. -/
def history_backward (s : EditorState) (count : Nat) : EditorState :=
  { s with historyIndex := s.historyIndex - count,
           trace := s.trace ++ [BufOp.historyBackwardOp count] }

/-- Modelled from the spec: Buffer.history_forward(count) — move forward
through input history by `count` entries. -/
def history_forward (s : EditorState) (count : Nat) : EditorState :=
  { s with historyIndex := s.historyIndex + count,
           trace := s.trace ++ [BufOp.historyForwardOp count] }

/-- Filter completion_is_selected: a completion candidate is highlighted. -/
def completion_is_selected (s : EditorState) : Bool := s.completionSelected

/-- Filter is_searching: an incremental history search is active. -/
def is_searching (s : EditorState) : Bool := s.searching

/-- Filter has_completions: the completion menu is open. -/
def has_completions (s : EditorState) : Bool := s.completionOpen

/-- Filter has_selection: a text selection is active. -/
def has_selection (s : EditorState) : Bool := s.selectionActive

/-- Filter vi_mode: the application's editing mode is VI. -/
def vi_mode (s : EditorState) : Bool := s.editingMode == EMode.VI

/-- Filter vi_navigation_mode: VI editing mode and NAVIGATION input mode. -/
def vi_navigation_mode (s : EditorState) : Bool :=
  s.editingMode == EMode.VI && s.inputMode == InputMode.NAVIGATION

/-- Modelled from the spec: pgbuffer.buffer_should_be_handled(pgcli), the
external buffer-submission predicate (pgcli/pgbuffer.py is not among the
sources); treated as an opaque predicate per the spec. -/
def buffer_should_be_handled (s : EditorState) : Bool := s.shouldBeHandled

/-- Modelled from the spec: pgbuffer.safe_multi_line_mode(pgcli), the
safe-multiline predicate (pgcli/pgbuffer.py is not among the sources);
treated as an opaque predicate per the spec. -/
def safe_multi_line_mode (s : EditorState) : Bool := s.safeMultiLine

/-- The Condition has_suggestion_at_end: a suggestion exists and the cursor
is at the end of the current line. -/
def has_suggestion_at_end (s : EditorState) : Bool :=
  s.suggestion.isSome && is_cursor_at_the_end_of_line s

/-- A key event; `arg` is its numeric repeat-count argument (default 1). -/
structure Event where
  arg : Nat
  deriving DecidableEq

/-- The 4-space indent text inserted by the Tab handler. -/
def tab_insert_text : String := "    "

/-- The literal newline inserted by the Escape,Enter handler. -/
def newlineText : String := "\n"

/-- The beam-cursor reset escape sequence written when leaving vi mode. -/
def cursorResetSeq : String := "\x1b[5 q"

/-- F2 handler: flip pgcli.completer.smart_completion. -/
def f2_handler (_ev : Event) (s : EditorState) : EditorState :=
  { s with smart_completion := !s.smart_completion }

/-- F3 handler: flip pgcli.multi_line. -/
def f3_handler (_ev : Event) (s : EditorState) : EditorState :=
  { s with multi_line := !s.multi_line }

/-- A best-effort terminal write: emit on success, ignore failures. -/
def bestEffortWrite (s : EditorState) (msg : String) : EditorState :=
  match rawWriteFlush s.stream msg with
  | Except.ok written => { s with emitted := s.emitted ++ written }
  | Except.error _ => s

/-- F4 handler: flip pgcli.vi_mode, set the application editing mode to VI or
EMACS accordingly; entering vi mode installs the cursor-shape observer,
leaving it writes the beam-cursor reset sequence best-effort. -/
def f4_handler (_ev : Event) (s : EditorState) : EditorState :=
  let v := !s.vi_mode_flag
  let s1 := { s with vi_mode_flag := v,
                     editingMode := if v then EMode.VI else EMode.EMACS }
  if v then { s1 with shapesInstalled := true }
  else bestEffortWrite s1 cursorResetSeq

/-- F5 handler: flip pgcli.explain_mode. -/
def f5_handler (_ev : Event) (s : EditorState) : EditorState :=
  { s with explain_mode := !s.explain_mode }

/-- Tab handler: on the first line or a line whose stripped text is
non-empty, advance the open completion session or start a new one with the
first candidate selected; otherwise insert the 4-space indent without firing
the insert event. -/
def tab_handler (_ev : Event) (s : EditorState) : EditorState :=
  if on_first_line s || stripTruthy (current_line s) then
    if s.completionOpen then complete_next s
    else start_completion s true
  else
    insert_text s tab_insert_text false

/-- Escape handler (filter has_completions): force-close completion. -/
def escape_handler (_ev : Event) (s : EditorState) : EditorState :=
  clear_complete_state s

/-- Ctrl-Space handler: toggle the completion menu, opening without
pre-selection. -/
def control_space_handler (_ev : Event) (s : EditorState) : EditorState :=
  if s.completionOpen then clear_complete_state s
  else start_completion s false

/-- Ctrl-J handler (filter has_completions): next completion. -/
def control_j_handler (_ev : Event) (s : EditorState) : EditorState :=
  complete_next s

/-- Ctrl-K handler (filter has_completions): previous completion. -/
def control_k_handler (_ev : Event) (s : EditorState) : EditorState :=
  complete_previous s

/-- Enter handler under completion_is_selected: close the dropdown menu
instead of executing the query. -/
def enter_completion_handler (_ev : Event) (s : EditorState) : EditorState :=
  clear_complete_state s

/-- Enter handler under the submission filter: validate_and_handle. -/
def enter_submit_handler (_ev : Event) (s : EditorState) : EditorState :=
  validate_and_handle s

/-- Escape,Enter handler: insert a literal line break. -/
def escape_enter_handler (_ev : Event) (s : EditorState) : EditorState :=
  insert_text s newlineText true

/-- Ctrl-P handler: history_backward by the event's repeat count. -/
def control_p_handler (ev : Event) (s : EditorState) : EditorState :=
  history_backward s ev.arg

/-- Ctrl-N handler: history_forward by the event's repeat count. -/
def control_n_handler (ev : Event) (s : EditorState) : EditorState :=
  history_forward s ev.arg

/-- Suggestion-acceptance handler for l / right arrow in vi navigation mode:
insert the suggestion's text when one is present. -/
def accept_suggestion_handler (_ev : Event) (s : EditorState) : EditorState :=
  match s.suggestion with
  | some t => insert_text s t true
  | none => s

/-- Plain forward-movement handler for l / right arrow in vi navigation
mode: cursor_position += get_cursor_right_position(). -/
def forward_movement_handler (_ev : Event) (s : EditorState) : EditorState :=
  { s with cursorPosition := s.cursorPosition + get_cursor_right_position s }

/-- A key binding: chord, guard filter, eager flag, handler, and a label
identifying the registration. -/
structure Binding where
  bid : String
  chord : List Key
  filter : EditorState → Bool
  eager : Bool
  handler : Event → EditorState → EditorState

def bF2 : Binding :=
  { bid := "f2", chord := [Key.f2], filter := fun _ => true,
    eager := false, handler := f2_handler }

def bF3 : Binding :=
  { bid := "f3", chord := [Key.f3], filter := fun _ => true,
    eager := false, handler := f3_handler }

def bF4 : Binding :=
  { bid := "f4", chord := [Key.f4], filter := fun _ => true,
    eager := false, handler := f4_handler }

def bF5 : Binding :=
  { bid := "f5", chord := [Key.f5], filter := fun _ => true,
    eager := false, handler := f5_handler }

def bTab : Binding :=
  { bid := "tab", chord := [Key.tab], filter := fun _ => true,
    eager := false, handler := tab_handler }

def bEscComp : Binding :=
  { bid := "escapeCompletions", chord := [Key.escape], filter := has_completions,
    eager := false, handler := escape_handler }

def bCSpace : Binding :=
  { bid := "controlSpace", chord := [Key.controlSpace], filter := fun _ => true,
    eager := false, handler := control_space_handler }

def bCJ : Binding :=
  { bid := "controlJ", chord := [Key.controlJ], filter := has_completions,
    eager := false, handler := control_j_handler }

def bCK : Binding :=
  { bid := "controlK", chord := [Key.controlK], filter := has_completions,
    eager := false, handler := control_k_handler }

def bEnterComp : Binding :=
  { bid := "enterCompletion", chord := [Key.enter], filter := completion_is_selected,
    eager := false, handler := enter_completion_handler }

def bEnterSubmit : Binding :=
  { bid := "enterSubmit", chord := [Key.enter],
    filter := fun s => !(completion_is_selected s || is_searching s) && buffer_should_be_handled s,
    eager := false, handler := enter_submit_handler }

def bEscEnter : Binding :=
  { bid := "escapeEnter", chord := [Key.escape, Key.enter],
    filter := fun s => !(vi_mode s) && !(safe_multi_line_mode s),
    eager := false, handler := escape_enter_handler }

def bCP : Binding :=
  { bid := "controlP", chord := [Key.controlP],
    filter := fun s => !(has_selection s),
    eager := false, handler := control_p_handler }

def bCN : Binding :=
  { bid := "controlN", chord := [Key.controlN],
    filter := fun s => !(has_selection s),
    eager := false, handler := control_n_handler }

def bLAccept : Binding :=
  { bid := "lAccept", chord := [Key.l],
    filter := fun s => vi_navigation_mode s && has_suggestion_at_end s,
    eager := true, handler := accept_suggestion_handler }

def bLMove : Binding :=
  { bid := "lMove", chord := [Key.l], filter := vi_navigation_mode,
    eager := false, handler := forward_movement_handler }

def bRightAccept : Binding :=
  { bid := "rightAccept", chord := [Key.right],
    filter := fun s => vi_navigation_mode s && has_suggestion_at_end s,
    eager := true, handler := accept_suggestion_handler }

def bRightMove : Binding :=
  { bid := "rightMove", chord := [Key.right], filter := vi_navigation_mode,
    eager := false, handler := forward_movement_handler }

/-- The binding table built by pgcli_bindings, in registration order. -/
def pgcli_bindings : List Binding :=
  [bF2, bF3, bF4, bF5, bTab, bEscComp, bCSpace, bCJ, bCK,
   bEnterComp, bEnterSubmit, bEscEnter, bCP, bCN,
   bLAccept, bLMove, bRightAccept, bRightMove]

/-- Modelled from the spec: the host input loop's match step — the bindings
registered on this chord whose predicate currently holds. -/
def matchesFor (chord : List Key) (s : EditorState) : List Binding → List Binding
  | [] => []
  | b :: bs =>
      if decide (b.chord = chord) && b.filter s then b :: matchesFor chord s bs
      else matchesFor chord s bs

/-- The eager bindings among a list of matches. -/
def eagerOnly : List Binding → List Binding
  | [] => []
  | b :: bs => if b.eager then b :: eagerOnly bs else eagerOnly bs

/-- Modelled from the spec: binding resolution — among matches whose
predicate is true, eager ones take precedence over non-eager ones;
registration order breaks remaining ties. -/
def selectBinding (table : List Binding) (chord : List Key) (s : EditorState) :
    Option Binding :=
  let ms := matchesFor chord s table
  match eagerOnly ms with
  | [] => ms.head?
  | b :: _ => some b

/-- Modelled from the spec: dispatch of one key event — the single selected
handler executes, or nothing happens when no predicate holds. -/
def dispatch (table : List Binding) (chord : List Key) (ev : Event)
    (s : EditorState) : EditorState :=
  match selectBinding table chord s with
  | some b => b.handler ev s
  | none => s

/-- A writable, non-raising output stream. -/
def streamOk : OutStream := { writable := true, raises := false }

/-- A baseline editor state used for concrete instances. -/
def baseState : EditorState :=
  { text := [], cursorPosition := 0, suggestion := none,
    completionOpen := false, completionSelected := false,
    searching := false, selectionActive := false,
    editingMode := EMode.EMACS, inputMode := InputMode.INSERT,
    smart_completion := true, multi_line := false,
    vi_mode_flag := false, explain_mode := false,
    shouldBeHandled := true, safeMultiLine := false,
    historyIndex := 0, stream := streamOk, emitted := [],
    shapesInstalled := false, trace := [] }

/-- A default key event with repeat count 1. -/
def ev1 : Event := { arg := 1 }

theorem select_f2 (s : EditorState) :
    selectBinding pgcli_bindings [Key.f2] s = some bF2 := by
  simp [selectBinding, matchesFor, eagerOnly, pgcli_bindings, bF2, bF3, bF4, bF5,
    bTab, bEscComp, bCSpace, bCJ, bCK, bEnterComp, bEnterSubmit, bEscEnter,
    bCP, bCN, bLAccept, bLMove, bRightAccept, bRightMove]

theorem select_f3 (s : EditorState) :
    selectBinding pgcli_bindings [Key.f3] s = some bF3 := by
  simp [selectBinding, matchesFor, eagerOnly, pgcli_bindings, bF2, bF3, bF4, bF5,
    bTab, bEscComp, bCSpace, bCJ, bCK, bEnterComp, bEnterSubmit, bEscEnter,
    bCP, bCN, bLAccept, bLMove, bRightAccept, bRightMove]

theorem select_f4 (s : EditorState) :
    selectBinding pgcli_bindings [Key.f4] s = some bF4 := by
  simp [selectBinding, matchesFor, eagerOnly, pgcli_bindings, bF2, bF3, bF4, bF5,
    bTab, bEscComp, bCSpace, bCJ, bCK, bEnterComp, bEnterSubmit, bEscEnter,
    bCP, bCN, bLAccept, bLMove, bRightAccept, bRightMove]

theorem select_f5 (s : EditorState) :
    selectBinding pgcli_bindings [Key.f5] s = some bF5 := by
  simp [selectBinding, matchesFor, eagerOnly, pgcli_bindings, bF2, bF3, bF4, bF5,
    bTab, bEscComp, bCSpace, bCJ, bCK, bEnterComp, bEnterSubmit, bEscEnter,
    bCP, bCN, bLAccept, bLMove, bRightAccept, bRightMove]

theorem select_tab (s : EditorState) :
    selectBinding pgcli_bindings [Key.tab] s = some bTab := by
  simp [selectBinding, matchesFor, eagerOnly, pgcli_bindings, bF2, bF3, bF4, bF5,
    bTab, bEscComp, bCSpace, bCJ, bCK, bEnterComp, bEnterSubmit, bEscEnter,
    bCP, bCN, bLAccept, bLMove, bRightAccept, bRightMove]

theorem select_enter (s : EditorState) :
    selectBinding pgcli_bindings [Key.enter] s =
      (if completion_is_selected s then some bEnterComp
       else if !(is_searching s) && buffer_should_be_handled s then some bEnterSubmit
       else none) := by
  cases h1 : completion_is_selected s <;> cases h2 : is_searching s <;>
    cases h3 : buffer_should_be_handled s <;>
      simp [selectBinding, matchesFor, eagerOnly, pgcli_bindings, bF2, bF3, bF4, bF5,
        bTab, bEscComp, bCSpace, bCJ, bCK, bEnterComp, bEnterSubmit, bEscEnter,
        bCP, bCN, bLAccept, bLMove, bRightAccept, bRightMove, h1, h2, h3]

theorem select_esc_enter (s : EditorState) :
    selectBinding pgcli_bindings [Key.escape, Key.enter] s =
      (if !(vi_mode s) && !(safe_multi_line_mode s) then some bEscEnter else none) := by
  cases h1 : vi_mode s <;> cases h2 : safe_multi_line_mode s <;>
    simp [selectBinding, matchesFor, eagerOnly, pgcli_bindings, bF2, bF3, bF4, bF5,
      bTab, bEscComp, bCSpace, bCJ, bCK, bEnterComp, bEnterSubmit, bEscEnter,
      bCP, bCN, bLAccept, bLMove, bRightAccept, bRightMove, h1, h2]

theorem select_cp (s : EditorState) :
    selectBinding pgcli_bindings [Key.controlP] s =
      (if has_selection s then none else some bCP) := by
  cases h : has_selection s <;>
    simp [selectBinding, matchesFor, eagerOnly, pgcli_bindings, bF2, bF3, bF4, bF5,
      bTab, bEscComp, bCSpace, bCJ, bCK, bEnterComp, bEnterSubmit, bEscEnter,
      bCP, bCN, bLAccept, bLMove, bRightAccept, bRightMove, h]

theorem select_cn (s : EditorState) :
    selectBinding pgcli_bindings [Key.controlN] s =
      (if has_selection s then none else some bCN) := by
  cases h : has_selection s <;>
    simp [selectBinding, matchesFor, eagerOnly, pgcli_bindings, bF2, bF3, bF4, bF5,
      bTab, bEscComp, bCSpace, bCJ, bCK, bEnterComp, bEnterSubmit, bEscEnter,
      bCP, bCN, bLAccept, bLMove, bRightAccept, bRightMove, h]

theorem select_l (s : EditorState) :
    selectBinding pgcli_bindings [Key.l] s =
      (if vi_navigation_mode s then
        (if has_suggestion_at_end s then some bLAccept else some bLMove)
       else none) := by
  cases h1 : vi_navigation_mode s <;> cases h2 : has_suggestion_at_end s <;>
    simp [selectBinding, matchesFor, eagerOnly, pgcli_bindings, bF2, bF3, bF4, bF5,
      bTab, bEscComp, bCSpace, bCJ, bCK, bEnterComp, bEnterSubmit, bEscEnter,
      bCP, bCN, bLAccept, bLMove, bRightAccept, bRightMove, h1, h2]

theorem select_right (s : EditorState) :
    selectBinding pgcli_bindings [Key.right] s =
      (if vi_navigation_mode s then
        (if has_suggestion_at_end s then some bRightAccept else some bRightMove)
       else none) := by
  cases h1 : vi_navigation_mode s <;> cases h2 : has_suggestion_at_end s <;>
    simp [selectBinding, matchesFor, eagerOnly, pgcli_bindings, bF2, bF3, bF4, bF5,
      bTab, bEscComp, bCSpace, bCJ, bCK, bEnterComp, bEnterSubmit, bEscEnter,
      bCP, bCN, bLAccept, bLMove, bRightAccept, bRightMove, h1, h2]

/-- C3: every call of the patched input-mode setter with mode m emits, when
the write succeeds, exactly one escape sequence ESC [ c SPACE q, with c = 1
for NAVIGATION, c = 3 for REPLACE, and c = 5 for INSERT or any other mode;
this holds also when m equals the currently stored mode. -/
theorem cursor_shape_emission_spec (m : InputMode) (out : OutStream) (self : ViSt)
    (h1 : out.writable = true) (h2 : out.raises = false) :
    set_input_mode m out self =
      Except.ok ({ _input_mode := m }, ["\x1b[" ++ toString (shapeCode m) ++ " q"]) ∧
    shapeCode InputMode.NAVIGATION = 1 ∧ shapeCode InputMode.REPLACE = 3 ∧
    shapeCode InputMode.INSERT = 5 ∧ shapeCode InputMode.INSERT_MULTIPLE = 5 ∧
    shapeCode InputMode.REPLACE_SINGLE = 5 := by
  refine ⟨?_, rfl, rfl, rfl, rfl, rfl⟩
  simp [set_input_mode, rawWriteFlush, escapeSeq, h1, h2]

theorem cursor_shape_emission_spec_witness :
    set_input_mode InputMode.NAVIGATION streamOk { _input_mode := InputMode.NAVIGATION } =
      Except.ok ({ _input_mode := InputMode.NAVIGATION },
        ["\x1b[" ++ toString (shapeCode InputMode.NAVIGATION) ++ " q"]) :=
  (cursor_shape_emission_spec InputMode.NAVIGATION streamOk
    { _input_mode := InputMode.NAVIGATION } rfl rfl).1

/-- C5: the patched input-mode setter swallows write failures — for every
mode, output stream condition and prior vi state, it returns normally (no
exception propagates out of the setter). -/
theorem cursor_shape_swallow_spec (m : InputMode) (out : OutStream) (self : ViSt) :
    ∃ r, set_input_mode m out self = Except.ok r := by
  cases hw : out.writable <;> cases hr : out.raises <;>
    simp [set_input_mode, rawWriteFlush, caught, hw, hr]

/-- C9: after every call of the patched input-mode setter with mode m, the
stored mode _input_mode equals m, whether or not the escape-sequence write
succeeded. -/
theorem input_mode_stored_spec (m : InputMode) (out : OutStream) (self : ViSt) :
    ∃ written, set_input_mode m out self =
      Except.ok ({ _input_mode := m }, written) := by
  cases hw : out.writable <;> cases hr : out.raises <;>
    simp [set_input_mode, rawWriteFlush, caught, hw, hr]

theorem bestEffortWrite_flags (s : EditorState) (msg : String) :
    (bestEffortWrite s msg).vi_mode_flag = s.vi_mode_flag ∧
    (bestEffortWrite s msg).editingMode = s.editingMode ∧
    (bestEffortWrite s msg).smart_completion = s.smart_completion ∧
    (bestEffortWrite s msg).multi_line = s.multi_line ∧
    (bestEffortWrite s msg).explain_mode = s.explain_mode := by
  cases h : rawWriteFlush s.stream msg <;> simp [bestEffortWrite, h]

/-- C6 (amended): each toggle handler is an involution on its own flag —
applying F2 twice restores smart_completion, F3 twice restores multi_line,
F5 twice restores explain_mode, and F4 twice restores vi_mode_flag; after
applying F4 twice the editing mode is VI exactly when vi_mode_flag is set,
so it is restored whenever it was consistent with vi_mode_flag beforehand. -/
theorem toggle_involution_spec (evA evB : Event) (s : EditorState) :
    (dispatch pgcli_bindings [Key.f2] evB
      (dispatch pgcli_bindings [Key.f2] evA s)).smart_completion = s.smart_completion ∧
    (dispatch pgcli_bindings [Key.f3] evB
      (dispatch pgcli_bindings [Key.f3] evA s)).multi_line = s.multi_line ∧
    (dispatch pgcli_bindings [Key.f5] evB
      (dispatch pgcli_bindings [Key.f5] evA s)).explain_mode = s.explain_mode ∧
    (dispatch pgcli_bindings [Key.f4] evB
      (dispatch pgcli_bindings [Key.f4] evA s)).vi_mode_flag = s.vi_mode_flag ∧
    (dispatch pgcli_bindings [Key.f4] evB
      (dispatch pgcli_bindings [Key.f4] evA s)).editingMode =
      (if s.vi_mode_flag then EMode.VI else EMode.EMACS) := by
  cases hv : s.vi_mode_flag <;>
    simp [dispatch, select_f2, select_f3, select_f4, select_f5, bF2, bF3, bF4, bF5,
      f2_handler, f3_handler, f4_handler, f5_handler, bestEffortWrite_flags, hv]

/-- A state whose editing mode disagrees with the vi_mode flag. -/
def f4CexState : EditorState :=
  { baseState with vi_mode_flag := true, editingMode := EMode.EMACS }

/-- C6 counterexample: with vi_mode_flag set but editing mode EMACS, two F4
presses leave the editing mode at VI, not at its original EMACS value, so F4
is not an involution on the host editing mode for every starting state. -/
theorem toggle_involution_cex :
    ¬ ((dispatch pgcli_bindings [Key.f4] ev1
         (dispatch pgcli_bindings [Key.f4] ev1 f4CexState)).editingMode
        = f4CexState.editingMode) := by decide

/-- C2: on Enter, a highlighted completion candidate makes the handler close
the menu (clear the completion state) without submitting the buffer (the
trace is unchanged, so validate_and_handle is not called); with no candidate
highlighted, no active history search, and the external buffer-submission
predicate true, the buffer is submitted via validate_and_handle. -/
theorem enter_dispatch_spec (s : EditorState) (ev : Event) :
    (completion_is_selected s = true →
      dispatch pgcli_bindings [Key.enter] ev s = clear_complete_state s ∧
      (clear_complete_state s).completionOpen = false ∧
      (clear_complete_state s).completionSelected = false ∧
      (clear_complete_state s).trace = s.trace) ∧
    (completion_is_selected s = false → is_searching s = false →
      buffer_should_be_handled s = true →
      dispatch pgcli_bindings [Key.enter] ev s = validate_and_handle s ∧
      (validate_and_handle s).trace = s.trace ++ [BufOp.validateAndHandleOp]) := by
  constructor
  · intro h1
    refine ⟨?_, rfl, rfl, rfl⟩
    simp [dispatch, select_enter, h1, bEnterComp, enter_completion_handler]
  · intro h1 h2 h3
    refine ⟨?_, rfl⟩
    simp [dispatch, select_enter, h1, h2, h3, bEnterSubmit, enter_submit_handler]

/-- A state with an open completion menu and a highlighted candidate. -/
def selState : EditorState :=
  { baseState with completionOpen := true, completionSelected := true }

theorem enter_dispatch_spec_witness :
    dispatch pgcli_bindings [Key.enter] ev1 selState = clear_complete_state selState ∧
    dispatch pgcli_bindings [Key.enter] ev1 baseState = validate_and_handle baseState :=
  ⟨((enter_dispatch_spec selState ev1).1 rfl).1,
   ((enter_dispatch_spec baseState ev1).2 rfl rfl rfl).1⟩

/-- C7: an Escape,Enter chord dispatched with vi-mode off and the
safe-multiline predicate false inserts exactly one literal newline character
into the buffer at the cursor. -/
theorem escape_enter_newline_spec (s : EditorState) (ev : Event)
    (h1 : vi_mode s = false) (h2 : safe_multi_line_mode s = false) :
    dispatch pgcli_bindings [Key.escape, Key.enter] ev s =
      insert_text s newlineText true ∧
    (insert_text s newlineText true).text =
      s.text.take s.cursorPosition ++ '\n' :: s.text.drop s.cursorPosition := by
  constructor
  · simp [dispatch, select_esc_enter, h1, h2, bEscEnter, escape_enter_handler]
  · simp [insert_text, newlineText]

theorem escape_enter_newline_spec_witness :
    dispatch pgcli_bindings [Key.escape, Key.enter] ev1 baseState =
      insert_text baseState newlineText true :=
  (escape_enter_newline_spec baseState ev1 rfl rfl).1

/-- C8: with a text selection active neither the Ctrl-P nor the Ctrl-N
binding fires and the state is unchanged; without a selection, Ctrl-P moves
backward and Ctrl-N forward through history by exactly the event's numeric
repeat-count argument. -/
theorem history_nav_spec (s : EditorState) (ev : Event) :
    (has_selection s = true →
      selectBinding pgcli_bindings [Key.controlP] s = none ∧
      selectBinding pgcli_bindings [Key.controlN] s = none ∧
      dispatch pgcli_bindings [Key.controlP] ev s = s ∧
      dispatch pgcli_bindings [Key.controlN] ev s = s) ∧
    (has_selection s = false →
      dispatch pgcli_bindings [Key.controlP] ev s = history_backward s ev.arg ∧
      (history_backward s ev.arg).historyIndex = s.historyIndex - ev.arg ∧
      dispatch pgcli_bindings [Key.controlN] ev s = history_forward s ev.arg ∧
      (history_forward s ev.arg).historyIndex = s.historyIndex + ev.arg) := by
  constructor
  · intro h
    refine ⟨?_, ?_, ?_, ?_⟩ <;> simp [dispatch, select_cp, select_cn, h]
  · intro h
    refine ⟨?_, rfl, ?_, rfl⟩ <;>
      simp [dispatch, select_cp, select_cn, h, bCP, bCN,
        control_p_handler, control_n_handler]

/-- A key event with repeat count 3. -/
def ev3 : Event := { arg := 3 }

/-- A state with an active text selection. -/
def selectionState : EditorState := { baseState with selectionActive := true }

theorem history_nav_spec_witness :
    dispatch pgcli_bindings [Key.controlP] ev3 selectionState = selectionState ∧
    dispatch pgcli_bindings [Key.controlP] ev3 baseState = history_backward baseState 3 ∧
    (history_backward baseState 3).historyIndex = baseState.historyIndex - 3 :=
  ⟨((history_nav_spec selectionState ev3).1 rfl).2.2.1,
   ((history_nav_spec baseState ev3).2 rfl).1,
   ((history_nav_spec baseState ev3).2 rfl).2.1⟩

/-- C1: for l and right-arrow events in vi navigation mode — with a pending
suggestion and the cursor at end of line, the eager acceptance binding is the
one selected and the suggestion's text is inserted into the buffer (the
plain-movement binding does not run); otherwise the non-eager movement
binding is selected and the cursor moves right by exactly one position. -/
theorem vi_forward_keys_spec (s : EditorState) (ev : Event)
    (hnav : vi_navigation_mode s = true) :
    (∀ t, s.suggestion = some t → is_cursor_at_the_end_of_line s = true →
      selectBinding pgcli_bindings [Key.l] s = some bLAccept ∧
      selectBinding pgcli_bindings [Key.right] s = some bRightAccept ∧
      dispatch pgcli_bindings [Key.l] ev s = insert_text s t true ∧
      dispatch pgcli_bindings [Key.right] ev s = insert_text s t true) ∧
    (s.suggestion = none ∨ is_cursor_at_the_end_of_line s = false →
      selectBinding pgcli_bindings [Key.l] s = some bLMove ∧
      selectBinding pgcli_bindings [Key.right] s = some bRightMove ∧
      dispatch pgcli_bindings [Key.l] ev s =
        { s with cursorPosition := s.cursorPosition + 1 } ∧
      dispatch pgcli_bindings [Key.right] ev s =
        { s with cursorPosition := s.cursorPosition + 1 }) := by
  constructor
  · intro t ht hend
    have hsug : has_suggestion_at_end s = true := by
      simp [has_suggestion_at_end, ht, hend]
    refine ⟨?_, ?_, ?_, ?_⟩ <;>
      simp [dispatch, select_l, select_right, hnav, hsug, bLAccept, bRightAccept,
        accept_suggestion_handler, ht]
  · intro hcase
    have hsug : has_suggestion_at_end s = false := by
      cases hcase with
      | inl h => simp [has_suggestion_at_end, h]
      | inr h => simp [has_suggestion_at_end, h]
    refine ⟨?_, ?_, ?_, ?_⟩ <;>
      simp [dispatch, select_l, select_right, hnav, hsug, bLMove, bRightMove,
        forward_movement_handler, get_cursor_right_position]

/-- The pending suggestion text of the spec's test. -/
def sugText : String := "SELECT"

/-- A vi-navigation-mode state. -/
def viNavState : EditorState :=
  { baseState with editingMode := EMode.VI, inputMode := InputMode.NAVIGATION }

/-- Navigation mode, two-character buffer, cursor at end of line, pending
suggestion. -/
def suggestState : EditorState :=
  { viNavState with text := ['a', 'b'], cursorPosition := 2,
                    suggestion := some sugText }

/-- Navigation mode, no suggestion, cursor inside the line. -/
def noSugState : EditorState :=
  { viNavState with text := ['a', 'b'], cursorPosition := 0 }

theorem vi_forward_keys_spec_witness :
    dispatch pgcli_bindings [Key.l] ev1 suggestState =
      insert_text suggestState sugText true ∧
    dispatch pgcli_bindings [Key.l] ev1 noSugState =
      { noSugState with cursorPosition := noSugState.cursorPosition + 1 } :=
  ⟨((vi_forward_keys_spec suggestState ev1 (by decide)).1 sugText rfl
      (by decide)).2.2.1,
   ((vi_forward_keys_spec noSugState ev1 (by decide)).2 (Or.inl rfl)).2.2.1⟩

/-- C4 (amended): on Tab, when the cursor is on the first line or the current
line contains a non-whitespace character, the handler advances an open
completion session or starts a new one with the first candidate pre-selected;
on a line past the first that is empty or whitespace-only, it inserts the
4-space indent text and starts no completion session. -/
theorem tab_dispatch_spec (s : EditorState) (ev : Event) :
    ((on_first_line s = true ∨ stripTruthy (current_line s) = true) →
      (s.completionOpen = true →
        dispatch pgcli_bindings [Key.tab] ev s = complete_next s) ∧
      (s.completionOpen = false →
        dispatch pgcli_bindings [Key.tab] ev s = start_completion s true)) ∧
    (on_first_line s = false → stripTruthy (current_line s) = false →
      dispatch pgcli_bindings [Key.tab] ev s = insert_text s tab_insert_text false ∧
      tab_insert_text.toList = [' ', ' ', ' ', ' '] ∧
      (insert_text s tab_insert_text false).completionOpen = s.completionOpen ∧
      (insert_text s tab_insert_text false).completionSelected = s.completionSelected) := by
  have hdisp : dispatch pgcli_bindings [Key.tab] ev s = tab_handler ev s := by
    simp [dispatch, select_tab, bTab]
  constructor
  · intro hcond
    have hor : (on_first_line s || stripTruthy (current_line s)) = true := by
      cases hcond with
      | inl h => simp [h]
      | inr h => simp [h]
    constructor
    · intro hopen
      rw [hdisp]
      simp [tab_handler, hor, hopen]
    · intro hclosed
      rw [hdisp]
      simp [tab_handler, hor, hclosed]
  · intro h1 h2
    refine ⟨?_, rfl, rfl, rfl⟩
    rw [hdisp]
    simp [tab_handler, h1, h2]

/-- A state with an open completion session on the first line. -/
def openState : EditorState := { baseState with completionOpen := true }

/-- A state on a whitespace-only second line: text is a line with one
character followed by a line of two spaces, cursor at the end. -/
def wsState : EditorState :=
  { baseState with text := ['a', '\n', ' ', ' '], cursorPosition := 4 }

theorem tab_dispatch_spec_witness :
    dispatch pgcli_bindings [Key.tab] ev1 baseState = start_completion baseState true ∧
    dispatch pgcli_bindings [Key.tab] ev1 openState = complete_next openState ∧
    dispatch pgcli_bindings [Key.tab] ev1 wsState = insert_text wsState tab_insert_text false :=
  ⟨((tab_dispatch_spec baseState ev1).1 (Or.inl rfl)).2 rfl,
   ((tab_dispatch_spec openState ev1).1 (Or.inl rfl)).1 rfl,
   ((tab_dispatch_spec wsState ev1).2 (by decide) (by decide)).1⟩

/-- C4 counterexample: on a whitespace-only (hence non-empty) current line
past the first, with no completion session open, Tab does not start a
completion session as the claim states — the dispatched handler takes the
indent branch, leaving completion closed and inserting the 4-space text. -/
theorem tab_dispatch_cex :
    on_first_line wsState = false ∧ current_line wsState ≠ [] ∧
    wsState.completionOpen = false ∧
    (dispatch pgcli_bindings [Key.tab] ev1 wsState).completionOpen = false ∧
    (dispatch pgcli_bindings [Key.tab] ev1 wsState).trace =
      [BufOp.insertTextOp tab_insert_text false] := by decide

/-- C10: a Tab event on a non-first line whose text is entirely whitespace
takes the indent branch: the 4-space text is inserted with fire_event false,
and no completion session is started or advanced. -/
theorem tab_whitespace_indent_spec (s : EditorState) (ev : Event)
    (h1 : on_first_line s = false)
    (h2 : (current_line s).all Char.isWhitespace = true) :
    dispatch pgcli_bindings [Key.tab] ev s = insert_text s tab_insert_text false ∧
    (insert_text s tab_insert_text false).trace =
      s.trace ++ [BufOp.insertTextOp tab_insert_text false] ∧
    (insert_text s tab_insert_text false).completionOpen = s.completionOpen ∧
    (insert_text s tab_insert_text false).completionSelected = s.completionSelected := by
  have hstrip : stripTruthy (current_line s) = false := by
    cases hS : stripTruthy (current_line s)
    · rfl
    · exfalso
      simp only [stripTruthy, List.any_eq_true] at hS
      rcases hS with ⟨c, hc, hcw⟩
      have hw := List.all_eq_true.mp h2 c hc
      simp [hw] at hcw
  refine ⟨?_, rfl, rfl, rfl⟩
  simp [dispatch, select_tab, bTab, tab_handler, h1, hstrip]

theorem tab_whitespace_indent_spec_witness :
    dispatch pgcli_bindings [Key.tab] ev1 wsState =
      insert_text wsState tab_insert_text false :=
  (tab_whitespace_indent_spec wsState ev1 (by decide) (by decide)).1
